import Mathlib

/-!
# Verification of the Pikemon client core

Shallow embedding of the Pikemon client (`src/interface/src/text.rs`,
`src/client/src/interface/mod.rs`, `src/client/src/net.rs`,
`src/client/src/client.rs`) and proofs of the specification claims about
its text codec, movement model, synchronization protocol and engine hook
state machine.

Machine bytes are modelled as `Nat` reduced modulo 256 where the code
relies on byte wrap-around; the Game Boy program counter as `Nat` modulo
65536.  Fallible operations return `Option`/`Except`.  The checkpoint
address table (`src/client/src/interface/offsets.rs`) and the engine value
table (`values.rs`) are not part of the sources, so every address and
value constant is carried in an explicit `Env` parameter; theorems that
depend on distinct checkpoints state that distinctness as hypotheses,
exactly as the fixed address table guarantees it.
-/

namespace Pikemon

/-! ## Text codec — `src/interface/src/text.rs` -/

namespace text

namespace special

/-- Start a text section. -/
def TEXT_START : Nat := 0x00

/-- A space character. -/
def SPACE : Nat := 0x7F

/-- Move down a line. -/
def LINE_DOWN : Nat := 0x4E

/-- Start writing to the bottom line. -/
def BOTTOM_LINE : Nat := 0x4F

/-- Start a new paragraph. -/
def PARAGRAPH : Nat := 0x51

/-- Scroll to the next line. -/
def SCROLL_LINE : Nat := 0x55

/-- End the message box. -/
def END_MSG : Nat := 0x57

/-- Prompt player to end text box. -/
def END_PROMPT : Nat := 0x58

/-- Terminates the string. -/
def TERMINATOR : Nat := 0x50

end special

/-- The per-character mapping of `Encoder::next`'s inner `encode_char`
(`src/interface/src/text.rs`), branch for branch in source order. -/
def encode_char (c : Char) : Nat :=
  if 'A' ≤ c ∧ c ≤ 'Z' then 0x80 + (c.toNat - 'A'.toNat)
  else if c = '(' then 0x8A
  else if c = ')' then 0x8B
  else if c = ':' then 0x8C
  else if c = ';' then 0x8D
  else if c = '[' then 0x8E
  else if c = ']' then 0x8F
  else if 'a' ≤ c ∧ c ≤ 'z' then 0xA0 + (c.toNat - 'a'.toNat)
  else if c = '\'' then 0xE0
  else if c = '-' then 0xE3
  else if c = '?' then 0xE6
  else if c = '!' then 0xE7
  else if c = '.' then 0xE8
  else if c = '/' then 0xF3
  else if c = ',' then 0xF4
  else if '0' ≤ c ∧ c ≤ '9' then 0xF6 + (c.toNat - '0'.toNat)
  else if c = ' ' then special.SPACE
  else if c = '\n' then special.LINE_DOWN
  else 0xE6

/-- The `Encoder` iterator consumes the string character by character and
yields `encode_char` of each, i.e. the byte sequence is the map of
`encode_char` over the characters. -/
def encode (s : String) : List Nat := s.data.map encode_char

end text

/-! ## Data model — `common` crate types as used by the client -/

/-- `MovementData` (spec §3): tile coordinate, facing direction and walk
counter; all fields are machine bytes, modelled as `Nat`.  The data-model
invariant keeps `walk_counter` in [0,8]. -/
structure MovementData where
  map_id : Nat
  map_x : Nat
  map_y : Nat
  direction : Nat
  walk_counter : Nat
deriving DecidableEq

/-- `PlayerData` (spec §3): engine-encoded name plus movement data, as the
client reads it (`player.name`, `player.movement_data`). -/
structure PlayerData where
  name : List Nat
  movement_data : MovementData
deriving DecidableEq

/-- Modelled from the spec: `PlayerData::check_collision` lives in the
`common` crate, which is not among the sources.  Per spec §4.2 `occupies`
and its call site in `sprite_check_hack` (which tests `map_id`
separately), it is true iff the player's tile position matches. -/
def PlayerData.check_collision (p : PlayerData) (x y : Nat) : Bool :=
  p.movement_data.map_x == x && p.movement_data.map_y == y

/-! ## Movement model — `src/client/src/client.rs` -/

/-- `get_player_position` (`src/client/src/client.rs`): pixel position of
a player, the tile coordinate times 16 plus the between-tile offset
`(8 - walk_counter) * 2` (0 when the walk counter is 0) applied along the
direction's axis.  Byte subtraction `8 - ticks` agrees with `Nat`
subtraction under the data-model invariant `walk_counter ≤ 8`. -/
def get_player_position (player : PlayerData) : Int × Int :=
  let x : Int := (player.movement_data.map_x : Int) * 16
  let y : Int := (player.movement_data.map_y : Int) * 16
  let ticks := player.movement_data.walk_counter
  let offset : Int := if ticks = 0 then 0 else (((8 - ticks) * 2 : Nat) : Int)
  if player.movement_data.direction = 0 then (x, y + offset)
  else if player.movement_data.direction = 4 then (x, y - offset)
  else if player.movement_data.direction = 8 then (x - offset, y)
  else if player.movement_data.direction = 12 then (x + offset, y)
  else (x, y)

/-- The draw offset added to the tile position `(map_x*16, map_y*16)`:
`get_player_position` evaluated at tile (0,0), so that the result is
exactly the between-tile pixel offset for the given direction code and
walk counter. -/
def draw_offset (dir wc : Nat) : Int × Int :=
  get_player_position
    { name := [],
      movement_data :=
        { map_id := 0, map_x := 0, map_y := 0, direction := dir, walk_counter := wc } }

/-! ## Engine interface — `gb_emu` types as the hooks use them -/

/-- The CPU registers the hooks touch: 16-bit program counter, 8-bit
accumulator. -/
structure Cpu where
  pc : Nat
  a : Nat
deriving DecidableEq

/-- `Cpu::jump`: set the program counter. -/
def Cpu.jump (cpu : Cpu) (addr : Nat) : Cpu := { cpu with pc := addr }

/-- Engine memory: byte-addressed working memory accessed through
`lb`/`sb`, and the cartridge ROM banks written by `load_party`, each as a
write history (most recent write first; unwritten cells read 0). -/
structure Memory where
  ram : List (Nat × Nat)
  rom : List ((Nat × Nat) × Nat)
deriving DecidableEq

/-- `Memory::lb`: load a byte. -/
def Memory.lb (m : Memory) (addr : Nat) : Nat :=
  (match m.ram.find? (fun p => p.1 == addr) with
   | some p => p.2
   | none => 0) % 256

/-- `Memory::sb`: store a byte. -/
def Memory.sb (m : Memory) (addr v : Nat) : Memory :=
  { m with ram := (addr, v % 256) :: m.ram }

/-- One cartridge ROM write (`mem.cart.rom[bank][addr] = v`). -/
def Memory.write_rom (m : Memory) (bank addr v : Nat) : Memory :=
  { m with rom := ((bank, addr), v % 256) :: m.rom }

/-- One party slot: level and species (spec §3, `PokemonSlot`). -/
structure Pokemon where
  level : Nat
  species : Nat
deriving DecidableEq

/-- `Party`: the active-slot count plus the roster (`party.pokemon` is a
6-tuple in the source; a list models it). -/
structure Party where
  num_pokemon : Nat
  pokemon : List Pokemon
deriving DecidableEq

/-- Modelled from the spec: the checkpoint address table
(`src/client/src/interface/offsets.rs`), the engine value table
(`values.rs`) and the party extractor `extract::player_party` are not
among the sources.  Per the spec they are fixed constants — distinct
addresses in one target program image — and one pure reader of engine
memory; they are carried here as an explicit environment, and theorems
state the distinctness they rely on as hypotheses. -/
structure Env where
  OVERWORLD_LOOP_START : Nat
  SPRITE_CHECK_EXIT_1 : Nat
  SPRITE_CHECK_EXIT_2 : Nat
  NUM_SPRITES : Nat
  MAP_ID : Nat
  MAP_X : Nat
  MAP_Y : Nat
  PLAYER_DIR : Nat
  SPRITE_INDEX : Nat
  DISPLAY_TEXT_ID_AFTER_INIT : Nat
  DISPLAY_TEXT_SETUP_DONE : Nat
  FRAME_COUNTER : Nat
  TEXT_PROCESSOR_NEXT_CHAR_1 : Nat
  TEXT_PROCESSOR_NEXT_CHAR_2 : Nat
  TEXT_PROCESSOR_END : Nat
  BATTLE_TYPE : Nat
  ACTIVE_BATTLE : Nat
  TRAINER_NUM : Nat
  CURRRENT_OPPONENT : Nat
  PROF_OAK_DATA_ADDR : Nat
  PROF_OAK_DATA_BANK : Nat
  battle_type_normal : Nat
  active_battle_trainer : Nat
  trainer_class_prof_oak : Nat
  TRAINER_TAG : Nat
  player_party : Memory → Party

/-! ## Hook state machine — `src/client/src/interface/mod.rs` -/

/-- `DataState`: one interception flag value. -/
inductive DataState where
  | Normal
  | Hacked
deriving DecidableEq

/-- `GameState` (the spec's SessionPhase). -/
inductive GameState where
  | Normal
  | Waiting
deriving DecidableEq

/-- `NetworkRequest`: pending request handed from the hook layer to the
outbound protocol pass. -/
inductive NetworkRequest where
  | None
  | Battle (id : Nat)
deriving DecidableEq

/-- `GameData` (named `InterfaceData` at its use sites in
`src/client/src/net.rs`): session phase, pending network request, the
PlayerTable (a hash map keyed by player id, modelled as an association
list in the map's iteration order), the last interacting peer, the two
interception flags and the pending message FIFO. -/
structure GameData where
  game_state : GameState
  network_request : NetworkRequest
  other_players : List (Nat × PlayerData)
  last_interaction : Nat
  sprite_id_state : DataState
  text_state : DataState
  current_message : List Nat
deriving DecidableEq

/-- `GameData::new`. -/
def GameData.new : GameData :=
  { game_state := .Normal, network_request := .None, other_players := [],
    last_interaction := 0, sprite_id_state := .Normal, text_state := .Normal,
    current_message := [] }

/-- `GameData::create_message_box`: frame `input` as TEXT_START, the
encoded bytes, END_MSG, TERMINATOR, pushed at the back of the pending
message queue. -/
def GameData.create_message_box (g : GameData) (input : String) : GameData :=
  { g with current_message :=
      g.current_message ++
        text.special.TEXT_START ::
          (text.encode input ++ [text.special.END_MSG, text.special.TERMINATOR]) }

/-- The tile one step from the local player's position in the local
facing direction, as `sprite_check_hack` computes it (byte coordinates,
with u8 wrap-around on the increment/decrement). -/
def target_tile (e : Env) (mem : Memory) : Nat × Nat :=
  let x := mem.lb e.MAP_X
  let y := mem.lb e.MAP_Y
  match mem.lb e.PLAYER_DIR with
  | 0x00 => (x, (y + 1) % 256)
  | 0x04 => (x, (y + 255) % 256)
  | 0x0C => ((x + 1) % 256, y)
  | _ => ((x + 255) % 256, y)

/-- `sprite_check_hack` (`src/client/src/interface/mod.rs`): reset the
sprite interception flag at OVERWORLD_LOOP_START; at either sprite-check
exit checkpoint (the first gated on NUM_SPRITES being 0), if some
PlayerTable entry is on the same map and occupies the target tile, write
the sentinel 0xFF to SPRITE_INDEX, set the flag to Hacked and record the
colliding peer (first match in table iteration order, as the source's
`for … break`). -/
def sprite_check_hack (e : Env) (cpu : Cpu) (mem : Memory) (game_data : GameData) :
    Cpu × Memory × GameData :=
  let game_data :=
    if cpu.pc = e.OVERWORLD_LOOP_START then
      { game_data with sprite_id_state := .Normal }
    else game_data
  if (cpu.pc = e.SPRITE_CHECK_EXIT_1 ∧ mem.lb e.NUM_SPRITES = 0) ∨
      cpu.pc = e.SPRITE_CHECK_EXIT_2 then
    let map_id := mem.lb e.MAP_ID
    let xy := target_tile e mem
    match game_data.other_players.find?
        (fun p => p.2.movement_data.map_id == map_id && p.2.check_collision xy.1 xy.2) with
    | some p =>
        (cpu, mem.sb e.SPRITE_INDEX 0xFF,
          { game_data with sprite_id_state := .Hacked, last_interaction := p.1 })
    | none => (cpu, mem, game_data)
  else (cpu, mem, game_data)

/-- `display_text_hack` (`src/client/src/interface/mod.rs`): the text
interception.  At DISPLAY_TEXT_ID_AFTER_INIT while the sprite flag is
Hacked: jump to DISPLAY_TEXT_SETUP_DONE, set the frame counter to 30,
enter text-Hacked, queue the "PLAYER has nothing to say." message box,
request a battle with the last interacting peer and enter Waiting.  At
either TEXT_PROCESSOR_NEXT_CHAR checkpoint while text-Hacked: pop one
byte (TERMINATOR when the queue is empty) into the accumulator and
advance the program counter by one.  At TEXT_PROCESSOR_END: leave
text-Hacked. -/
def display_text_hack (e : Env) (cpu : Cpu) (mem : Memory) (game_data : GameData) :
    Cpu × Memory × GameData :=
  let s1 : Cpu × Memory × GameData :=
    if game_data.sprite_id_state = .Hacked ∧ cpu.pc = e.DISPLAY_TEXT_ID_AFTER_INIT then
      let cpu := cpu.jump e.DISPLAY_TEXT_SETUP_DONE
      let mem := mem.sb e.FRAME_COUNTER 30
      let game_data := { game_data with text_state := .Hacked }
      let game_data := game_data.create_message_box "PLAYER has nothing\nto say."
      let game_data :=
        { game_data with
            network_request := .Battle game_data.last_interaction,
            game_state := .Waiting }
      (cpu, mem, game_data)
    else (cpu, mem, game_data)
  let cpu := s1.1
  let mem := s1.2.1
  let game_data := s1.2.2
  let s2 : Cpu × GameData :=
    if game_data.text_state = .Hacked ∧
        (cpu.pc = e.TEXT_PROCESSOR_NEXT_CHAR_1 ∨ cpu.pc = e.TEXT_PROCESSOR_NEXT_CHAR_2) then
      match game_data.current_message with
      | [] => ({ cpu with a := text.special.TERMINATOR, pc := (cpu.pc + 1) % 65536 }, game_data)
      | b :: rest =>
          ({ cpu with a := b, pc := (cpu.pc + 1) % 65536 },
           { game_data with current_message := rest })
    else (cpu, game_data)
  let cpu := s2.1
  let game_data := s2.2
  let game_data :=
    if cpu.pc = e.TEXT_PROCESSOR_END then { game_data with text_state := .Normal }
    else game_data
  (cpu, mem, game_data)

/-- `load_party` (`src/client/src/interface/mod.rs`): write the received
party into the Prof. Oak trainer-data ROM slot: a 0xFF lead byte, then
level and species for each active slot, then a 0 terminator. -/
def load_party (e : Env) (party : Party) (mem : Memory) : Memory :=
  let bank := e.PROF_OAK_DATA_BANK
  let addr := e.PROF_OAK_DATA_ADDR % 0x4000
  let mem := mem.write_rom bank addr 0xFF
  let step := fun (st : Memory × Nat) (mon : Pokemon) =>
    ((st.1.write_rom bank st.2 mon.level).write_rom bank (st.2 + 1) mon.species, st.2 + 2)
  let st := (party.pokemon.take party.num_pokemon).foldl step (mem, addr + 1)
  st.1.write_rom bank st.2 0

/-- `set_battle` (`src/client/src/interface/mod.rs`): configure a trainer
battle against "Prof. Oak" and load the received party — the engine-state
loader for battle data. -/
def set_battle (e : Env) (mem : Memory) (party : Party) : Memory :=
  let mem := mem.sb e.BATTLE_TYPE e.battle_type_normal
  let mem := mem.sb e.ACTIVE_BATTLE e.active_battle_trainer
  let mem := mem.sb e.TRAINER_NUM 1
  let mem := mem.sb e.CURRRENT_OPPONENT (e.trainer_class_prof_oak + e.TRAINER_TAG)
  load_party e party mem

/-! ## Synchronization protocol — `src/client/src/net.rs` -/

/-- `NetworkEvent` (spec §4.3): the tagged wire message. -/
inductive NetworkEvent where
  | PlayerJoin (id : Nat)
  | FullUpdate (id : Nat) (data : PlayerData)
  | MovementUpdate (id : Nat) (data : MovementData)
  | PlayerQuit (id : Nat)
  | Chat (id : Nat) (msg : String)
  | BattleDataRequest (target : Nat) (requester : Nat)
  | BattleDataResponse (target : Nat) (party : Party)
  | UpdateRequest
deriving DecidableEq

/-- `NetworkError` (spec §7 taxonomy; the handshake produces
`DecodeError`). -/
inductive NetworkError where
  | DecodeError
  | IoError
deriving DecidableEq

/-- `handle_network` (`src/client/src/net.rs`), handshake step: the first
received line must decode to `PlayerJoin(id)` (`none` models a decode
failure); that id is returned as the session's local identity, anything
else fails with `DecodeError`.  The function never touches the
PlayerTable; the table is threaded through unchanged to make that
explicit. -/
def handle_network (first_line : Option NetworkEvent)
    (table : List (Nat × PlayerData)) :
    Except NetworkError Nat × List (Nat × PlayerData) :=
  match first_line with
  | some (.PlayerJoin id) => (.ok id, table)
  | _ => (.error .DecodeError, table)

/-- PlayerTable lookup (`HashMap::get`). -/
def tbl_lookup (t : List (Nat × PlayerData)) (id : Nat) : Option PlayerData :=
  (t.find? (fun p => p.1 == id)).map (fun p => p.2)

/-- PlayerTable upsert (`HashMap::insert`). -/
def tbl_insert (t : List (Nat × PlayerData)) (id : Nat) (d : PlayerData) :
    List (Nat × PlayerData) :=
  if t.any (fun p => p.1 == id) then
    t.map (fun p => if p.1 == id then (id, d) else p)
  else t ++ [(id, d)]

/-- Mutate only the movement field of an existing entry (`get_mut` plus
assignment; an absent key leaves the table untouched). -/
def tbl_update_movement (t : List (Nat × PlayerData)) (id : Nat) (m : MovementData) :
    List (Nat × PlayerData) :=
  t.map (fun p => if p.1 == id then (p.1, { p.2 with movement_data := m }) else p)

/-- PlayerTable removal (`HashMap::remove`). -/
def tbl_remove (t : List (Nat × PlayerData)) (id : Nat) : List (Nat × PlayerData) :=
  t.filter (fun p => p.1 != id)

/-- `ClientDataManager` (`src/client/src/net.rs`): the session's local
identity, the shared interface data, the last broadcast state with its
dirty flag, and the chat transcript (name bytes and message bytes per
line). -/
structure ClientDataManager where
  id : Nat
  game_data : GameData
  last_state : PlayerData
  new_update : Bool
  chat_box : List (List Nat × List Nat)
deriving DecidableEq

/-- `ClientDataManager::update_player_data`: record a changed local state
and mark it for broadcast. -/
def ClientDataManager.update_player_data (c : ClientDataManager) (data : PlayerData) :
    ClientDataManager :=
  if c.last_state ≠ data then { c with last_state := data, new_update := true } else c

/-- `ClientDataManager::send_update`: one outbound pass.  The returned
list holds the enqueued events; the source drops delivery errors
(`let _ = sender.send(…)`), so enqueuing is unconditional.  A dirty local
state emits one `FullUpdate`; a pending `NetworkRequest::Battle(id)`
emits one `BattleDataRequest(id, self.id)`; the pending request is reset
to `None` unconditionally afterwards. -/
def ClientDataManager.send_update (c : ClientDataManager) :
    ClientDataManager × List NetworkEvent :=
  let s1 : ClientDataManager × List NetworkEvent :=
    if c.new_update then
      ({ c with new_update := false }, [.FullUpdate c.id c.last_state])
    else (c, [])
  let c := s1.1
  let out :=
    match c.game_data.network_request with
    | .None => []
    | .Battle id => [NetworkEvent.BattleDataRequest id c.id]
  ({ c with game_data := { c.game_data with network_request := .None } }, s1.2 ++ out)

/-- One iteration of `ClientDataManager::recv_update`'s event loop
(`src/client/src/net.rs`): apply a single dequeued event.  `none` models
the `unimplemented!()` catch-all panic, reached by `PlayerJoin` after the
handshake; otherwise the updated manager and memory plus the events
enqueued in response.  (The source writes the session phase through the
field named `state` on `InterfaceData`, i.e. `game_state` here.) -/
def ClientDataManager.recv_step (e : Env) (c : ClientDataManager) (mem : Memory) :
    NetworkEvent → Option (ClientDataManager × Memory × List NetworkEvent)
  | .FullUpdate id data =>
      some ({ c with game_data :=
          { c.game_data with other_players := tbl_insert c.game_data.other_players id data } },
        mem, [])
  | .MovementUpdate id data =>
      some ({ c with game_data :=
          { c.game_data with
              other_players := tbl_update_movement c.game_data.other_players id data } },
        mem, [])
  | .PlayerQuit id =>
      some ({ c with game_data :=
          { c.game_data with other_players := tbl_remove c.game_data.other_players id } },
        mem, [])
  | .BattleDataRequest _ id =>
      some (c, mem, [.BattleDataResponse id (e.player_party mem)])
  | .BattleDataResponse _ party =>
      some ({ c with game_data := { c.game_data with game_state := .Normal } },
        set_battle e mem party, [])
  | .UpdateRequest =>
      some (c, mem, [.FullUpdate c.id c.last_state])
  | .Chat id msg =>
      let player_name :=
        match tbl_lookup c.game_data.other_players id with
        | some player => player.name
        | none => text.encode "UNKNOWN"
      some ({ c with chat_box := c.chat_box ++ [(player_name, text.encode msg)] }, mem, [])
  | .PlayerJoin _ => none

/-- `ClientDataManager::recv_update`: drain the queued events in order,
aborting (`none`, the panic) as soon as a single event does. -/
def ClientDataManager.recv_update (e : Env) (c : ClientDataManager) (mem : Memory) :
    List NetworkEvent → Option (ClientDataManager × Memory × List NetworkEvent)
  | [] => some (c, mem, [])
  | ev :: rest =>
      match ClientDataManager.recv_step e c mem ev with
      | none => none
      | some s =>
          match ClientDataManager.recv_update e s.1 s.2.1 rest with
          | none => none
          | some s2 => some (s2.1, s2.2.1, s.2.2 ++ s2.2.2)

/-- The PlayerTable after one inbound event, when the step does not
panic. -/
def table_after (e : Env) (c : ClientDataManager) (mem : Memory) (ev : NetworkEvent) :
    Option (List (Nat × PlayerData)) :=
  (ClientDataManager.recv_step e c mem ev).map (fun s => s.1.game_data.other_players)

/-! ## Concrete instances used to evaluate the development on closed
inputs -/

/-- A concrete environment: pairwise distinct small addresses standing in
for the fixed address table, and an empty-party extractor. -/
def env0 : Env :=
  { OVERWORLD_LOOP_START := 1, SPRITE_CHECK_EXIT_1 := 2, SPRITE_CHECK_EXIT_2 := 3,
    NUM_SPRITES := 4, MAP_ID := 5, MAP_X := 6, MAP_Y := 7, PLAYER_DIR := 8,
    SPRITE_INDEX := 9, DISPLAY_TEXT_ID_AFTER_INIT := 10, DISPLAY_TEXT_SETUP_DONE := 11,
    FRAME_COUNTER := 12, TEXT_PROCESSOR_NEXT_CHAR_1 := 13, TEXT_PROCESSOR_NEXT_CHAR_2 := 14,
    TEXT_PROCESSOR_END := 15, BATTLE_TYPE := 16, ACTIVE_BATTLE := 17, TRAINER_NUM := 18,
    CURRRENT_OPPONENT := 19, PROF_OAK_DATA_ADDR := 20, PROF_OAK_DATA_BANK := 21,
    battle_type_normal := 22, active_battle_trainer := 23, trainer_class_prof_oak := 24,
    TRAINER_TAG := 25,
    player_party := fun _ => { num_pokemon := 0, pokemon := [] } }

/-- All-zero engine memory. -/
def mem0 : Memory := { ram := [], rom := [] }

/-- A player at the origin tile of map 0. -/
def player0 : PlayerData :=
  { name := [], movement_data := { map_id := 0, map_x := 0, map_y := 0, direction := 0, walk_counter := 0 } }

/-- A player occupying tile (0,1) of map 0 — one step down from the
origin, i.e. right where a down-facing local player at the origin is
about to step. -/
def playerAdj : PlayerData :=
  { name := [], movement_data := { map_id := 0, map_x := 0, map_y := 1, direction := 0, walk_counter := 0 } }

/-- An arbitrary movement value used to exercise `MovementUpdate`. -/
def mv1 : MovementData := { map_id := 1, map_x := 2, map_y := 3, direction := 4, walk_counter := 5 }

/-- A fresh manager with local id 9 and empty state. -/
def c0 : ClientDataManager :=
  { id := 9, game_data := GameData.new, last_state := player0, new_update := false,
    chat_box := [] }

/-- A manager whose hook layer has requested a battle with peer 7. -/
def cBattle : ClientDataManager :=
  { c0 with game_data := { GameData.new with network_request := .Battle 7 } }

/-- A manager whose PlayerTable holds peer 5 at the adjacent tile. -/
def cTable : ClientDataManager :=
  { c0 with game_data := { GameData.new with other_players := [(5, playerAdj)] } }

/-- CPU sitting at the second sprite-check checkpoint of `env0`. -/
def cpuSprite : Cpu := { pc := 3, a := 0 }

/-- Hook state with peer 7 adjacent, for the sprite-check step. -/
def gdSprite : GameData := { GameData.new with other_players := [(7, playerAdj)] }

/-- CPU sitting at the post-dialogue-init checkpoint of `env0`. -/
def cpuText : Cpu := { pc := 10, a := 0 }

/-- Hook state already sprite-Hacked with peer 7 recorded. -/
def gdText : GameData := { GameData.new with sprite_id_state := .Hacked, last_interaction := 7 }

/-- CPU sitting at the first next-character checkpoint of `env0`. -/
def cpuChar : Cpu := { pc := 13, a := 0 }

/-- CPU sitting at the text-processor-end checkpoint of `env0`. -/
def cpuEnd : Cpu := { pc := 15, a := 0 }

/-- Hook state in text-Hacked mode with two pending message bytes. -/
def gdChar : GameData :=
  { GameData.new with text_state := .Hacked, current_message := [0x87, 0x84] }

end Pikemon

namespace Pikemon

/-- C9: the text codec is deterministic and one byte per character:
uppercase letters map into the contiguous range at 0x80 (so "HELLO"
encodes to [0x87, 0x84, 0x8B, 0x8B, 0x8E]), lowercase into the range at
0xA0, digits into the range at 0xF6, space to SPACE, newline to
LINE_DOWN, and every character outside all classes handled by the
encoder maps to the question-mark code 0xE6. -/
theorem C9_text_codec_mapping :
    (∀ s : String, (text.encode s).length = s.data.length) ∧
    (∀ c : Char, 'A' ≤ c → c ≤ 'Z' → text.encode_char c = 0x80 + (c.toNat - 'A'.toNat)) ∧
    (∀ c : Char, 'a' ≤ c → c ≤ 'z' → text.encode_char c = 0xA0 + (c.toNat - 'a'.toNat)) ∧
    (∀ c : Char, '0' ≤ c → c ≤ '9' → text.encode_char c = 0xF6 + (c.toNat - '0'.toNat)) ∧
    text.encode_char ' ' = text.special.SPACE ∧
    text.encode_char '\n' = text.special.LINE_DOWN ∧
    text.encode "HELLO" = [0x87, 0x84, 0x8B, 0x8B, 0x8E] ∧
    (∀ c : Char, ¬('A' ≤ c ∧ c ≤ 'Z') → ¬('a' ≤ c ∧ c ≤ 'z') →
      ¬('0' ≤ c ∧ c ≤ '9') →
      c ∉ (['(', ')', ':', ';', '[', ']', '\'', '-', '?', '!', '.', '/', ','] : List Char) →
      c ≠ ' ' → c ≠ '\n' → text.encode_char c = 0xE6) := by
  refine ⟨?_, ?_, ?_, ?_, by decide, by decide, by decide, ?_⟩
  · intro s; simp [text.encode]
  · intro c h1 h2
    simp [text.encode_char, h1, h2]
  · intro c h1 h2
    have hA : ¬('A' ≤ c ∧ c ≤ 'Z') := by
      rintro ⟨-, hz⟩
      exact absurd (le_trans h1 hz) (by decide)
    have := h1; have := h2
    simp only [text.encode_char, if_neg hA]
    have hne : ∀ d : Char, d < 'a' ∨ 'z' < d → c ≠ d := by
      rintro d (hd | hd) rfl
      · exact absurd h1 (not_le.mpr hd)
      · exact absurd h2 (not_le.mpr hd)
    rw [if_neg (hne '(' (Or.inl (by decide))), if_neg (hne ')' (Or.inl (by decide))),
      if_neg (hne ':' (Or.inl (by decide))), if_neg (hne ';' (Or.inl (by decide))),
      if_neg (hne '[' (Or.inl (by decide))), if_neg (hne ']' (Or.inl (by decide))),
      if_pos ⟨h1, h2⟩]
  · intro c h1 h2
    have hne : ∀ d : Char, d < '0' ∨ '9' < d → c ≠ d := by
      rintro d (hd | hd) rfl
      · exact absurd h1 (not_le.mpr hd)
      · exact absurd h2 (not_le.mpr hd)
    have hA : ¬('A' ≤ c ∧ c ≤ 'Z') := by
      rintro ⟨ha, -⟩
      exact absurd (le_trans ha h2) (by decide)
    have ha : ¬('a' ≤ c ∧ c ≤ 'z') := by
      rintro ⟨ha, -⟩
      exact absurd (le_trans ha h2) (by decide)
    simp only [text.encode_char, if_neg hA, if_neg ha]
    rw [if_neg (hne '(' (Or.inl (by decide))), if_neg (hne ')' (Or.inl (by decide))),
      if_neg (hne ':' (Or.inr (by decide))), if_neg (hne ';' (Or.inr (by decide))),
      if_neg (hne '[' (Or.inr (by decide))), if_neg (hne ']' (Or.inr (by decide))),
      if_neg (hne '\'' (Or.inl (by decide))), if_neg (hne '-' (Or.inl (by decide))),
      if_neg (hne '?' (Or.inr (by decide))), if_neg (hne '!' (Or.inl (by decide))),
      if_neg (hne '.' (Or.inl (by decide))), if_neg (hne '/' (Or.inl (by decide))),
      if_neg (hne ',' (Or.inl (by decide))), if_pos ⟨h1, h2⟩]
  · intro c hU hl hd hp hsp hnl
    simp only [List.mem_cons, List.not_mem_nil, or_false] at hp
    push_neg at hp
    obtain ⟨p1, p2, p3, p4, p5, p6, p7, p8, p9, p10, p11, p12, p13⟩ := hp
    simp [text.encode_char, hU, hl, hd, p1, p2, p3, p4, p5, p6, p7, p8, p9,
      p10, p11, p12, p13, hsp, hnl]

/-- Witness for C9 at concrete characters: 'H', 'q', '7' land in their
ranges and '@' falls through to the question-mark code. -/
theorem C9_text_codec_mapping_witness :
    text.encode_char 'H' = 0x87 ∧ text.encode_char 'q' = 0xB0 ∧
    text.encode_char '7' = 0xFD ∧ text.encode_char '@' = 0xE6 := by
  refine ⟨?_, ?_, ?_, ?_⟩
  · have h := C9_text_codec_mapping.2.1 'H' (by decide) (by decide)
    simpa using h
  · have h := C9_text_codec_mapping.2.2.1 'q' (by decide) (by decide)
    simpa using h
  · have h := C9_text_codec_mapping.2.2.2.1 '7' (by decide) (by decide)
    simpa using h
  · have h := C9_text_codec_mapping.2.2.2.2.2.2.2 '@' (by decide) (by decide)
      (by decide) (by decide) (by decide) (by decide)
    simpa using h

/-- C10: the text encoder is not injective: six punctuation characters
collide with the uppercase range — '(' with 'K' at 0x8A, ')' with 'L' at
0x8B, ':' with 'M' at 0x8C, ';' with 'N' at 0x8D, '[' with 'O' at 0x8E,
']' with 'P' at 0x8F — so encoded text cannot be uniquely decoded. -/
theorem C10_encoder_not_injective :
    text.encode_char '(' = 0x8A ∧ text.encode_char 'K' = 0x8A ∧
    text.encode_char ')' = 0x8B ∧ text.encode_char 'L' = 0x8B ∧
    text.encode_char ':' = 0x8C ∧ text.encode_char 'M' = 0x8C ∧
    text.encode_char ';' = 0x8D ∧ text.encode_char 'N' = 0x8D ∧
    text.encode_char '[' = 0x8E ∧ text.encode_char 'O' = 0x8E ∧
    text.encode_char ']' = 0x8F ∧ text.encode_char 'P' = 0x8F ∧
    ¬ Function.Injective text.encode_char := by
  refine ⟨by decide, by decide, by decide, by decide, by decide, by decide,
    by decide, by decide, by decide, by decide, by decide, by decide, ?_⟩
  intro hinj
  have : '(' = 'K' :=
    hinj (show text.encode_char '(' = text.encode_char 'K' by decide)
  exact absurd this (by decide)

/-- C8 counterexample: at walk_counter = 0 (direction code 0) the code's
draw offset is (0,0), whose movement-axis magnitude is 0, not the claimed
`(8 - 0) * 2 = 16`: the magnitude formula does not hold at
walk_counter = 0. -/
theorem C8_draw_offset_counterexample :
    draw_offset 0 0 = (0, 0) ∧ (draw_offset 0 0).2.natAbs ≠ (8 - 0) * 2 := by
  constructor
  · rfl
  · intro h
    simp [draw_offset, get_player_position] at h

/-- C8 amended: for every walk_counter in [1,8] the draw offset has
magnitude `(8 - walk_counter) * 2` on the movement axis of the direction
code (y for 0/down and 4/up, x for 8 and 12) and 0 on the other axis;
when walk_counter = 0 the offset is (0,0) for every direction code. -/
theorem C8_draw_offset_amended :
    (∀ wc : Nat, 1 ≤ wc → wc ≤ 8 →
      draw_offset 0 wc = (0, (((8 - wc) * 2 : Nat) : Int)) ∧
      draw_offset 4 wc = (0, -(((8 - wc) * 2 : Nat) : Int)) ∧
      draw_offset 8 wc = (-(((8 - wc) * 2 : Nat) : Int), 0) ∧
      draw_offset 12 wc = ((((8 - wc) * 2 : Nat) : Int), 0)) ∧
    (∀ dir : Nat, draw_offset dir 0 = (0, 0)) := by
  constructor
  · intro wc h1 _h2
    have h0 : ¬(wc = 0) := by omega
    refine ⟨?_, ?_, ?_, ?_⟩ <;>
      simp [draw_offset, get_player_position, h0]
  · intro dir
    by_cases h0 : dir = 0 <;> by_cases h4 : dir = 4 <;> by_cases h8 : dir = 8 <;>
      by_cases h12 : dir = 12 <;>
      simp [draw_offset, get_player_position, h0, h4, h8, h12]

/-- Witness for C8 amended at direction 4, walk_counter 3: the offset is
(0, -10) = (0, -(8-3)*2). -/
theorem C8_draw_offset_amended_witness : draw_offset 4 3 = (0, -10) := by
  have h := (C8_draw_offset_amended.1 3 (by decide) (by decide)).2.1
  simpa using h

/-! ### PlayerTable lemmas -/

lemma tbl_lookup_cons (a : Nat × PlayerData) (t : List (Nat × PlayerData)) (k : Nat) :
    tbl_lookup (a :: t) k = if a.1 = k then some a.2 else tbl_lookup t k := by
  by_cases h : a.1 = k <;> simp [tbl_lookup, List.find?_cons, h]

lemma tbl_lookup_replace_self (t : List (Nat × PlayerData)) (id : Nat) (d : PlayerData)
    (h : t.any (fun p => p.1 == id) = true) :
    tbl_lookup (t.map (fun p => if p.1 == id then (id, d) else p)) id = some d := by
  induction t with
  | nil => simp at h
  | cons a t ih =>
    by_cases ha : a.1 = id
    · have he : (if (a.1 == id) = true then (id, d) else a) = (id, d) := by simp [ha]
      rw [List.map_cons, he, tbl_lookup_cons, if_pos rfl]
    · have ha' : (a.1 == id) = false := beq_eq_false_iff_ne.mpr ha
      have he : (if (a.1 == id) = true then (id, d) else a) = a := by simp [ha']
      rw [List.any_cons, ha', Bool.false_or] at h
      rw [List.map_cons, he, tbl_lookup_cons, if_neg ha]
      exact ih h

lemma tbl_lookup_replace_ne (t : List (Nat × PlayerData)) (id : Nat) (d : PlayerData)
    (k : Nat) (hk : k ≠ id) :
    tbl_lookup (t.map (fun p => if p.1 == id then (id, d) else p)) k = tbl_lookup t k := by
  induction t with
  | nil => rfl
  | cons a t ih =>
    by_cases ha : a.1 = id
    · have he : (if (a.1 == id) = true then (id, d) else a) = (id, d) := by simp [ha]
      have h1 : ¬((id : Nat) = k) := fun hh => hk hh.symm
      have h2 : ¬(a.1 = k) := by rw [ha]; exact h1
      rw [List.map_cons, he, tbl_lookup_cons, tbl_lookup_cons, if_neg h1, if_neg h2]
      exact ih
    · have ha' : (a.1 == id) = false := beq_eq_false_iff_ne.mpr ha
      have he : (if (a.1 == id) = true then (id, d) else a) = a := by simp [ha']
      rw [List.map_cons, he, tbl_lookup_cons, tbl_lookup_cons]
      by_cases hak : a.1 = k
      · rw [if_pos hak, if_pos hak]
      · rw [if_neg hak, if_neg hak]
        exact ih

lemma tbl_lookup_insert_self (t : List (Nat × PlayerData)) (id : Nat) (d : PlayerData) :
    tbl_lookup (tbl_insert t id d) id = some d := by
  unfold tbl_insert
  by_cases h : t.any (fun p => p.1 == id) = true
  · rw [if_pos h]
    exact tbl_lookup_replace_self t id d h
  · rw [if_neg h]
    have hnone : t.find? (fun p => p.1 == id) = none := by
      rw [List.find?_eq_none]
      intro p hp hpred
      exact h (List.any_eq_true.mpr ⟨p, hp, hpred⟩)
    rw [tbl_lookup, List.find?_append, hnone, Option.none_or]
    simp [List.find?_cons]

lemma tbl_lookup_insert_ne (t : List (Nat × PlayerData)) (id : Nat) (d : PlayerData)
    (k : Nat) (hk : k ≠ id) :
    tbl_lookup (tbl_insert t id d) k = tbl_lookup t k := by
  unfold tbl_insert
  by_cases h : t.any (fun p => p.1 == id) = true
  · rw [if_pos h]
    exact tbl_lookup_replace_ne t id d k hk
  · rw [if_neg h]
    have hk' : ((id : Nat) == k) = false := beq_eq_false_iff_ne.mpr (Ne.symm hk)
    rw [tbl_lookup, List.find?_append]
    have : List.find? (fun p => p.1 == k) [(id, d)] = none := by
      simp [List.find?_cons, hk']
    rw [this, Option.or_none]
    rfl

lemma tbl_lookup_update_self (t : List (Nat × PlayerData)) (id : Nat) (mv : MovementData)
    (d0 : PlayerData) (h : tbl_lookup t id = some d0) :
    tbl_lookup (tbl_update_movement t id mv) id =
      some { name := d0.name, movement_data := mv } := by
  induction t with
  | nil => simp [tbl_lookup] at h
  | cons a t ih =>
    by_cases ha : a.1 = id
    · rw [tbl_lookup_cons, if_pos ha] at h
      obtain rfl : a.2 = d0 := Option.some.inj h
      have he : (if (a.1 == id) = true then (a.1, { a.2 with movement_data := mv }) else a) =
          (a.1, { name := a.2.name, movement_data := mv }) := by simp [ha]
      rw [tbl_update_movement, List.map_cons, he, tbl_lookup_cons, if_pos ha]
    · have ha' : (a.1 == id) = false := beq_eq_false_iff_ne.mpr ha
      rw [tbl_lookup_cons, if_neg ha] at h
      have he : (if (a.1 == id) = true then (a.1, { a.2 with movement_data := mv }) else a) =
          a := by simp [ha']
      rw [tbl_update_movement, List.map_cons, he, tbl_lookup_cons, if_neg ha]
      exact ih h

lemma tbl_lookup_update_ne (t : List (Nat × PlayerData)) (id : Nat) (mv : MovementData)
    (k : Nat) (hk : k ≠ id) :
    tbl_lookup (tbl_update_movement t id mv) k = tbl_lookup t k := by
  induction t with
  | nil => rfl
  | cons a t ih =>
    by_cases ha : a.1 = id
    · have hak : ¬(a.1 = k) := by rw [ha]; exact fun hh => hk hh.symm
      have he : (if (a.1 == id) = true then (a.1, { a.2 with movement_data := mv }) else a) =
          (a.1, { name := a.2.name, movement_data := mv }) := by simp [ha]
      rw [tbl_update_movement, List.map_cons, he, tbl_lookup_cons, tbl_lookup_cons,
        if_neg hak, if_neg hak]
      exact ih
    · have ha' : (a.1 == id) = false := beq_eq_false_iff_ne.mpr ha
      have he : (if (a.1 == id) = true then (a.1, { a.2 with movement_data := mv }) else a) =
          a := by simp [ha']
      rw [tbl_update_movement, List.map_cons, he, tbl_lookup_cons, tbl_lookup_cons]
      by_cases hak : a.1 = k
      · rw [if_pos hak, if_pos hak]
      · rw [if_neg hak, if_neg hak]
        exact ih

lemma tbl_update_absent (t : List (Nat × PlayerData)) (id : Nat) (mv : MovementData)
    (h : tbl_lookup t id = none) :
    tbl_update_movement t id mv = t := by
  induction t with
  | nil => rfl
  | cons a t ih =>
    by_cases ha : a.1 = id
    · rw [tbl_lookup_cons, if_pos ha] at h
      cases h
    · have ha' : (a.1 == id) = false := beq_eq_false_iff_ne.mpr ha
      rw [tbl_lookup_cons, if_neg ha] at h
      have he : (if (a.1 == id) = true then (a.1, { a.2 with movement_data := mv }) else a) =
          a := by simp [ha']
      rw [tbl_update_movement, List.map_cons, he]
      exact congrArg (List.cons a) (ih h)

lemma tbl_lookup_remove_self (t : List (Nat × PlayerData)) (id : Nat) :
    tbl_lookup (tbl_remove t id) id = none := by
  have : List.find? (fun p => p.1 == id) (tbl_remove t id) = none := by
    rw [List.find?_eq_none]
    intro p hp
    have := List.mem_filter.mp hp
    simpa using this.2
  rw [tbl_lookup, this]
  rfl

lemma tbl_lookup_remove_ne (t : List (Nat × PlayerData)) (id : Nat) (k : Nat)
    (hk : k ≠ id) :
    tbl_lookup (tbl_remove t id) k = tbl_lookup t k := by
  induction t with
  | nil => rfl
  | cons a t ih =>
    by_cases ha : a.1 = id
    · have hak : ¬(a.1 = k) := by rw [ha]; exact fun hh => hk hh.symm
      have he : (a.1 != id) = false := by simp [bne, ha]
      rw [tbl_remove, List.filter_cons, he]
      simp only [Bool.false_eq_true, if_false]
      rw [tbl_lookup_cons, if_neg hak]
      exact ih
    · have he : (a.1 != id) = true := by simp [bne, beq_eq_false_iff_ne.mpr ha]
      rw [tbl_remove, List.filter_cons, he]
      simp only [if_true]
      rw [tbl_lookup_cons, tbl_lookup_cons]
      by_cases hak : a.1 = k
      · rw [if_pos hak, if_pos hak]
      · rw [if_neg hak, if_neg hak]
        exact ih

/-- C4: PlayerTable reconciliation: a FullUpdate for an unknown id
inserts exactly that data and disturbs no other entry; a MovementUpdate
for a known id replaces only the movement field, keeping the name and
every other entry; a MovementUpdate for an unknown id leaves the table
entirely unchanged; a PlayerQuit removes the entry and keeps the rest. -/
theorem C4_player_table_reconciliation (e : Env) (c : ClientDataManager) (mem : Memory)
    (id k : Nat) (d : PlayerData) (mv : MovementData) :
    (tbl_lookup c.game_data.other_players id = none →
      (table_after e c mem (.FullUpdate id d)).map (fun t => tbl_lookup t id) =
        some (some d) ∧
      (k ≠ id →
        (table_after e c mem (.FullUpdate id d)).map (fun t => tbl_lookup t k) =
          some (tbl_lookup c.game_data.other_players k))) ∧
    (∀ d0, tbl_lookup c.game_data.other_players id = some d0 →
      (table_after e c mem (.MovementUpdate id mv)).map (fun t => tbl_lookup t id) =
        some (some { name := d0.name, movement_data := mv }) ∧
      (k ≠ id →
        (table_after e c mem (.MovementUpdate id mv)).map (fun t => tbl_lookup t k) =
          some (tbl_lookup c.game_data.other_players k))) ∧
    (tbl_lookup c.game_data.other_players id = none →
      table_after e c mem (.MovementUpdate id mv) = some c.game_data.other_players) ∧
    ((table_after e c mem (.PlayerQuit id)).map (fun t => tbl_lookup t id) = some none ∧
     (k ≠ id →
       (table_after e c mem (.PlayerQuit id)).map (fun t => tbl_lookup t k) =
         some (tbl_lookup c.game_data.other_players k))) := by
  refine ⟨fun _h => ⟨?_, fun hk => ?_⟩, fun d0 h0 => ⟨?_, fun hk => ?_⟩,
    fun h0 => ?_, ?_, fun hk => ?_⟩
  · simp [table_after, ClientDataManager.recv_step, tbl_lookup_insert_self]
  · simp [table_after, ClientDataManager.recv_step, tbl_lookup_insert_ne _ _ _ _ hk]
  · simp [table_after, ClientDataManager.recv_step, tbl_lookup_update_self _ _ _ _ h0]
  · simp [table_after, ClientDataManager.recv_step, tbl_lookup_update_ne _ _ _ _ hk]
  · simp [table_after, ClientDataManager.recv_step, tbl_update_absent _ _ _ h0]
  · simp [table_after, ClientDataManager.recv_step, tbl_lookup_remove_self]
  · simp [table_after, ClientDataManager.recv_step, tbl_lookup_remove_ne _ _ _ hk]

/-- Witness for C4 on the one-entry table {5 ↦ playerAdj}: an unknown-id
FullUpdate installs the data, a known-id MovementUpdate swaps only the
movement, an unknown-id MovementUpdate is a no-op, and PlayerQuit removes
the entry. -/
theorem C4_player_table_reconciliation_witness :
    (table_after env0 cTable mem0 (.FullUpdate 2 player0)).map (fun t => tbl_lookup t 2) =
      some (some player0) ∧
    (table_after env0 cTable mem0 (.MovementUpdate 5 mv1)).map (fun t => tbl_lookup t 5) =
      some (some { name := playerAdj.name, movement_data := mv1 }) ∧
    table_after env0 cTable mem0 (.MovementUpdate 2 mv1) =
      some cTable.game_data.other_players ∧
    (table_after env0 cTable mem0 (.PlayerQuit 5)).map (fun t => tbl_lookup t 5) =
      some none := by
  refine ⟨?_, ?_, ?_, ?_⟩
  · exact ((C4_player_table_reconciliation env0 cTable mem0 2 0 player0 mv1).1 (by decide)).1
  · exact ((C4_player_table_reconciliation env0 cTable mem0 5 0 player0 mv1).2.1
      playerAdj (by decide)).1
  · exact (C4_player_table_reconciliation env0 cTable mem0 2 0 player0 mv1).2.2.1 (by decide)
  · exact (C4_player_table_reconciliation env0 cTable mem0 5 0 player0 mv1).2.2.2.1

/-- C5: handshake: a first line decoding to PlayerJoin(id) makes
connection setup succeed with exactly that id, the PlayerTable untouched;
any other first line (or a decode failure, `none`) fails with
DecodeError, again leaving the PlayerTable untouched; and the assigned id
is never changed afterwards by the outbound pass or by any successfully
processed inbound event. -/
theorem C5_handshake (first : Option NetworkEvent) (table : List (Nat × PlayerData))
    (id : Nat) (e : Env) (c : ClientDataManager) (mem : Memory) (ev : NetworkEvent) :
    handle_network (some (.PlayerJoin id)) table = (.ok id, table) ∧
    ((∀ j, first ≠ some (.PlayerJoin j)) →
      handle_network first table = (.error .DecodeError, table)) ∧
    (ClientDataManager.send_update c).1.id = c.id ∧
    ((ClientDataManager.recv_step e c mem ev).map (fun s => s.1.id) = some c.id ∨
      ClientDataManager.recv_step e c mem ev = none) := by
  refine ⟨rfl, fun hne => ?_, ?_, ?_⟩
  · match first with
    | none => rfl
    | some (.PlayerJoin j) => exact absurd rfl (hne j)
    | some (.FullUpdate _ _) => rfl
    | some (.MovementUpdate _ _) => rfl
    | some (.PlayerQuit _) => rfl
    | some (.Chat _ _) => rfl
    | some (.BattleDataRequest _ _) => rfl
    | some (.BattleDataResponse _ _) => rfl
    | some .UpdateRequest => rfl
  · rw [ClientDataManager.send_update]
    by_cases hn : c.new_update <;> simp [hn]
  · cases ev <;> simp [ClientDataManager.recv_step]

/-- Witness for C5 at a decode failure (`none`) as the first line: setup
fails with DecodeError and the table is returned untouched. -/
theorem C5_handshake_witness :
    handle_network none [] = (.error .DecodeError, []) := by
  exact (C5_handshake none [] 0 env0 c0 mem0 .UpdateRequest).2.1
    (fun j h => by cases h)

/-- C7 counterexample: a PlayerJoin arriving after the handshake is not
ignored — `recv_update` on [PlayerJoin 1, FullUpdate 2 player0] aborts
(the `unimplemented!()` panic, `none` here) and the subsequent FullUpdate
is never applied, although the same FullUpdate alone would install the
entry. -/
theorem C7_catch_all_counterexample :
    ClientDataManager.recv_update env0 c0 mem0
        [.PlayerJoin 1, .FullUpdate 2 player0] = none ∧
    (ClientDataManager.recv_update env0 c0 mem0 [.FullUpdate 2 player0]).map
        (fun s => tbl_lookup s.1.game_data.other_players 2) = some (some player0) := by
  constructor
  · rfl
  · rfl

/-- C7 amended: a received event variant that is not valid in the current
context (a PlayerJoin after the handshake) reaches the inbound handler's
catch-all branch, which is `unimplemented!()`: the step panics, so event
processing aborts — no client state is modified by that event, but
processing of subsequent events does not continue. -/
theorem C7_catch_all_amended (e : Env) (c : ClientDataManager) (mem : Memory)
    (id : Nat) (rest : List NetworkEvent) :
    ClientDataManager.recv_step e c mem (.PlayerJoin id) = none ∧
    ClientDataManager.recv_update e c mem (.PlayerJoin id :: rest) = none := by
  exact ⟨rfl, rfl⟩

/-- C3: battle round trip at the protocol layer: with a pending
NetworkRequest::Battle(peer), one outbound pass enqueues exactly one
BattleDataRequest(peer, localId) — any BattleDataRequest it enqueues has
exactly those arguments — and the pending request is reset to None
unconditionally (enqueuing is unconditional, so this is independent of
delivery success); receiving a BattleDataResponse sets the session phase
back to Normal and hands the party to the engine-state loader
`set_battle`. -/
theorem C3_battle_round_trip (e : Env) (c : ClientDataManager) (mem : Memory)
    (peer tgt : Nat) (party : Party) :
    (c.game_data.network_request = .Battle peer →
      ((ClientDataManager.send_update c).2.count (.BattleDataRequest peer c.id) = 1 ∧
       ∀ p q, NetworkEvent.BattleDataRequest p q ∈ (ClientDataManager.send_update c).2 →
         p = peer ∧ q = c.id)) ∧
    (ClientDataManager.send_update c).1.game_data.network_request = .None ∧
    ClientDataManager.recv_step e c mem (.BattleDataResponse tgt party) =
      some ({ c with game_data := { c.game_data with game_state := .Normal } },
        set_battle e mem party, []) := by
  refine ⟨fun hreq => ⟨?_, ?_⟩, ?_, rfl⟩
  · rw [ClientDataManager.send_update]
    by_cases hn : c.new_update <;> simp [hn, hreq, List.count_cons]
  · intro p q hmem
    rw [ClientDataManager.send_update] at hmem
    by_cases hn : c.new_update
    · simp [hn, hreq] at hmem
      exact ⟨hmem.1, hmem.2⟩
    · simp [hn, hreq] at hmem
      exact ⟨hmem.1, hmem.2⟩
  · rfl

/-- Witness for C3 on a manager with a pending Battle(7) request and
local id 9: the outbound pass enqueues exactly one BattleDataRequest(7,9)
and clears the request. -/
theorem C3_battle_round_trip_witness :
    (ClientDataManager.send_update cBattle).2.count (.BattleDataRequest 7 9) = 1 ∧
    (ClientDataManager.send_update cBattle).1.game_data.network_request = .None := by
  have h := C3_battle_round_trip env0 cBattle mem0 7 0
    { num_pokemon := 0, pokemon := [] }
  exact ⟨(h.1 rfl).1, h.2.1⟩

/-! ### Engine hook theorems -/

lemma Memory.lb_sb_self (m : Memory) (a v : Nat) : (m.sb a v).lb a = v % 256 := by
  simp [Memory.lb, Memory.sb, List.find?_cons]

/-- C1: sprite interception: at either sprite-check checkpoint (the first
additionally requiring the engine's sprite counter at NUM_SPRITES to be
zero), if some PlayerTable entry has the same map id and occupies the
tile one step from the local player in the local facing direction, the
sprite flag becomes Hacked, the sprite-index byte is set to the sentinel
0xFF and last_interaction is set to that (colliding) peer's id; at the
overworld-loop-start checkpoint the sprite flag resets to Normal. -/
theorem C1_sprite_interception (e : Env) (cpu : Cpu) (mem : Memory) (gd : GameData) :
    (((cpu.pc = e.SPRITE_CHECK_EXIT_1 ∧ mem.lb e.NUM_SPRITES = 0) ∨
        cpu.pc = e.SPRITE_CHECK_EXIT_2) →
      (∃ p ∈ gd.other_players,
        p.2.movement_data.map_id = mem.lb e.MAP_ID ∧
        p.2.check_collision (target_tile e mem).1 (target_tile e mem).2 = true) →
      (sprite_check_hack e cpu mem gd).2.2.sprite_id_state = .Hacked ∧
      (sprite_check_hack e cpu mem gd).2.1.lb e.SPRITE_INDEX = 0xFF ∧
      (∃ p ∈ gd.other_players,
        p.2.movement_data.map_id = mem.lb e.MAP_ID ∧
        p.2.check_collision (target_tile e mem).1 (target_tile e mem).2 = true ∧
        (sprite_check_hack e cpu mem gd).2.2.last_interaction = p.1)) ∧
    (cpu.pc = e.OVERWORLD_LOOP_START → cpu.pc ≠ e.SPRITE_CHECK_EXIT_1 →
      cpu.pc ≠ e.SPRITE_CHECK_EXIT_2 →
      (sprite_check_hack e cpu mem gd).2.2.sprite_id_state = .Normal) := by
  constructor
  · intro hpc hex
    have hsome : (gd.other_players.find? (fun p =>
        p.2.movement_data.map_id == mem.lb e.MAP_ID &&
        p.2.check_collision (target_tile e mem).1 (target_tile e mem).2)).isSome := by
      rw [List.find?_isSome]
      obtain ⟨p, hp, h1, h2⟩ := hex
      exact ⟨p, hp, by simp [h1, h2]⟩
    obtain ⟨q, hq⟩ := Option.isSome_iff_exists.mp hsome
    have hqmem := List.mem_of_find?_eq_some hq
    have hqpred := List.find?_some hq
    rw [Bool.and_eq_true, beq_iff_eq] at hqpred
    by_cases hov : cpu.pc = e.OVERWORLD_LOOP_START
    · simp only [sprite_check_hack, if_pos hov, if_pos hpc, hq]
      exact ⟨by simp, by simpa using Memory.lb_sb_self mem e.SPRITE_INDEX 0xFF,
        q, hqmem, hqpred.1, hqpred.2, by simp⟩
    · simp only [sprite_check_hack, if_neg hov, if_pos hpc, hq]
      exact ⟨by simp, by simpa using Memory.lb_sb_self mem e.SPRITE_INDEX 0xFF,
        q, hqmem, hqpred.1, hqpred.2, by simp⟩
  · intro h1 h2 h3
    have hno : ¬((cpu.pc = e.SPRITE_CHECK_EXIT_1 ∧ mem.lb e.NUM_SPRITES = 0) ∨
        cpu.pc = e.SPRITE_CHECK_EXIT_2) := by
      rintro (⟨h, -⟩ | h)
      · exact h2 h
      · exact h3 h
    simp only [sprite_check_hack, if_pos h1, if_neg hno]

/-- Witness for C1 at the second sprite-check checkpoint of `env0` with
peer 7 standing on the tile below the local player: the flag goes Hacked,
the sentinel is written, peer 7 is recorded. -/
theorem C1_sprite_interception_witness :
    (sprite_check_hack env0 cpuSprite mem0 gdSprite).2.2.sprite_id_state = .Hacked ∧
    (sprite_check_hack env0 cpuSprite mem0 gdSprite).2.1.lb env0.SPRITE_INDEX = 0xFF ∧
    (sprite_check_hack env0 cpuSprite mem0 gdSprite).2.2.last_interaction = 7 := by
  have h := (C1_sprite_interception env0 cpuSprite mem0 gdSprite).1
    (Or.inr (by decide)) ⟨(7, playerAdj), by decide, by decide, by decide⟩
  exact ⟨h.1, h.2.1, by decide⟩

/-- C2: text interception entry: when the sprite flag is Hacked and the
program counter is at the post-dialogue-init checkpoint, the handler
jumps the program counter to the setup-done checkpoint, sets the
frame-delay byte to 30, enqueues "PLAYER has nothing\nto say." framed as
TEXT_START · bytes · END_MSG · TERMINATOR, requests
NetworkRequest::Battle(last_interaction), enters the Waiting session
phase and sets the text flag to Hacked; and the text flag never becomes
Hacked while the sprite flag is Normal. -/
theorem C2_text_interception_entry (e : Env) (cpu : Cpu) (mem : Memory) (gd : GameData) :
    (gd.sprite_id_state = .Hacked → cpu.pc = e.DISPLAY_TEXT_ID_AFTER_INIT →
      e.DISPLAY_TEXT_SETUP_DONE ≠ e.TEXT_PROCESSOR_NEXT_CHAR_1 →
      e.DISPLAY_TEXT_SETUP_DONE ≠ e.TEXT_PROCESSOR_NEXT_CHAR_2 →
      e.DISPLAY_TEXT_SETUP_DONE ≠ e.TEXT_PROCESSOR_END →
      (display_text_hack e cpu mem gd).1.pc = e.DISPLAY_TEXT_SETUP_DONE ∧
      (display_text_hack e cpu mem gd).2.1.lb e.FRAME_COUNTER = 30 ∧
      (display_text_hack e cpu mem gd).2.2.current_message =
        gd.current_message ++
          text.special.TEXT_START ::
            (text.encode "PLAYER has nothing\nto say." ++
              [text.special.END_MSG, text.special.TERMINATOR]) ∧
      (display_text_hack e cpu mem gd).2.2.network_request =
        .Battle gd.last_interaction ∧
      (display_text_hack e cpu mem gd).2.2.game_state = .Waiting ∧
      (display_text_hack e cpu mem gd).2.2.text_state = .Hacked) ∧
    (gd.sprite_id_state = .Normal → gd.text_state = .Normal →
      (display_text_hack e cpu mem gd).2.2.text_state = .Normal) := by
  constructor
  · intro hs hpc h1 h2 h3
    simp only [display_text_hack, Cpu.jump, GameData.create_message_box,
      if_pos (And.intro hs hpc), h1, h2, h3, false_or, or_false, and_false,
      false_and, if_false, ne_eq, not_false_iff]
    refine ⟨?_, ?_, ?_, ?_, ?_, ?_⟩ <;>
      simp [h1, h2, h3, Memory.lb_sb_self]
  · intro hs ht
    have hno : ¬(gd.sprite_id_state = DataState.Hacked ∧
        cpu.pc = e.DISPLAY_TEXT_ID_AFTER_INIT) := by
      rintro ⟨h, -⟩
      rw [hs] at h
      cases h
    have hno2 : ¬(gd.text_state = DataState.Hacked ∧
        (cpu.pc = e.TEXT_PROCESSOR_NEXT_CHAR_1 ∨
          cpu.pc = e.TEXT_PROCESSOR_NEXT_CHAR_2)) := by
      rintro ⟨h, -⟩
      rw [ht] at h
      cases h
    by_cases hend : cpu.pc = e.TEXT_PROCESSOR_END
    · simp only [display_text_hack, if_neg hno, if_neg hno2, if_pos hend]
    · simp only [display_text_hack, if_neg hno, if_neg hno2, if_neg hend]
      exact ht

/-- Witness for C2 at `env0` with the sprite flag Hacked and peer 7
recorded: the jump, the frame delay, the battle request, the Waiting
phase and the text flag all take effect. -/
theorem C2_text_interception_entry_witness :
    (display_text_hack env0 cpuText mem0 gdText).1.pc = 11 ∧
    (display_text_hack env0 cpuText mem0 gdText).2.1.lb 12 = 30 ∧
    (display_text_hack env0 cpuText mem0 gdText).2.2.network_request = .Battle 7 ∧
    (display_text_hack env0 cpuText mem0 gdText).2.2.game_state = .Waiting ∧
    (display_text_hack env0 cpuText mem0 gdText).2.2.text_state = .Hacked := by
  have h := (C2_text_interception_entry env0 cpuText mem0 gdText).1 rfl rfl
    (by decide) (by decide) (by decide)
  exact ⟨h.1, h.2.1, h.2.2.2.1, h.2.2.2.2.1, h.2.2.2.2.2⟩

/-- C6: text substitution step: while the text flag is Hacked, at either
next-character checkpoint exactly one byte moves from the front of the
pending message queue into the accumulator — the TERMINATOR byte 0x50
when the queue is empty, so the step never fails — and the program
counter advances by exactly 1; at the text-processor-end checkpoint the
text flag resets to Normal. -/
theorem C6_text_substitution (e : Env) (cpu : Cpu) (mem : Memory) (gd : GameData) :
    (gd.text_state = .Hacked →
      (cpu.pc = e.TEXT_PROCESSOR_NEXT_CHAR_1 ∨ cpu.pc = e.TEXT_PROCESSOR_NEXT_CHAR_2) →
      cpu.pc ≠ e.DISPLAY_TEXT_ID_AFTER_INIT →
      (cpu.pc + 1) % 65536 ≠ e.TEXT_PROCESSOR_END →
      cpu.pc + 1 < 65536 →
      (display_text_hack e cpu mem gd).1.pc = cpu.pc + 1 ∧
      (display_text_hack e cpu mem gd).1.a =
        gd.current_message.headD text.special.TERMINATOR ∧
      (display_text_hack e cpu mem gd).2.2.current_message =
        gd.current_message.tail) ∧
    (cpu.pc = e.TEXT_PROCESSOR_END →
      cpu.pc ≠ e.DISPLAY_TEXT_ID_AFTER_INIT →
      cpu.pc ≠ e.TEXT_PROCESSOR_NEXT_CHAR_1 →
      cpu.pc ≠ e.TEXT_PROCESSOR_NEXT_CHAR_2 →
      (display_text_hack e cpu mem gd).2.2.text_state = .Normal) := by
  constructor
  · intro ht hpc hni hend hlt
    have hno : ¬(gd.sprite_id_state = DataState.Hacked ∧
        cpu.pc = e.DISPLAY_TEXT_ID_AFTER_INIT) := fun h => hni h.2
    cases hmsg : gd.current_message with
    | nil =>
      simp only [display_text_hack, if_neg hno, if_pos (And.intro ht hpc), hmsg,
        if_neg hend]
      exact ⟨Nat.mod_eq_of_lt hlt, rfl, rfl⟩
    | cons b rest =>
      simp only [display_text_hack, if_neg hno, if_pos (And.intro ht hpc), hmsg,
        if_neg hend]
      exact ⟨Nat.mod_eq_of_lt hlt, rfl, rfl⟩
  · intro hpc hni hn1 hn2
    have hno : ¬(gd.sprite_id_state = DataState.Hacked ∧
        cpu.pc = e.DISPLAY_TEXT_ID_AFTER_INIT) := fun h => hni h.2
    have hno2 : ¬(gd.text_state = DataState.Hacked ∧
        (cpu.pc = e.TEXT_PROCESSOR_NEXT_CHAR_1 ∨
          cpu.pc = e.TEXT_PROCESSOR_NEXT_CHAR_2)) := by
      rintro ⟨-, h | h⟩
      · exact hn1 h
      · exact hn2 h
    simp only [display_text_hack, if_neg hno, if_neg hno2, if_pos hpc]

/-- Witness for C6 at `env0`: at the first next-character checkpoint with
queue [0x87, 0x84] the accumulator receives 0x87, the queue drops to
[0x84] and the program counter advances from 13 to 14; at the
text-processor-end checkpoint the text flag resets. -/
theorem C6_text_substitution_witness :
    (display_text_hack env0 cpuChar mem0 gdChar).1.pc = 14 ∧
    (display_text_hack env0 cpuChar mem0 gdChar).1.a = 0x87 ∧
    (display_text_hack env0 cpuChar mem0 gdChar).2.2.current_message = [0x84] ∧
    (display_text_hack env0 cpuEnd mem0 gdChar).2.2.text_state = .Normal := by
  have h1 := (C6_text_substitution env0 cpuChar mem0 gdChar).1 rfl (Or.inl rfl)
    (by decide) (by decide) (by decide)
  have h2 := (C6_text_substitution env0 cpuEnd mem0 gdChar).2 rfl
    (by decide) (by decide) (by decide)
  exact ⟨h1.1, h1.2.1, h1.2.2, h2⟩

end Pikemon
